import Mathlib

/-!
Shallow embedding of `main.py` (HashiRWA demo): the JSON metadata model,
the canonical serialization performed by `json.dumps(..., sort_keys=True,
ensure_ascii=False)`, the SHA-256 proof hash, and the record lifecycle
operations (`onboard` POST, `admin_approve`, `admin_reject`, and the
pending/approved listings of the `admin` and `market` views).

Wall-clock inputs (`datetime.now()`, `generate_id()`) are passed in as
explicit parameters; the JSON file store is passed as an explicit list of
items (the net effect of `load_db`/`save_db` on the stored item list).
-/

/-! ## JSON values

Python dicts are embedded as ordered association lists (`JEntries`): the
entry order models dict insertion order, which is what
`sort_keys=True` exists to neutralize. -/

mutual

inductive Json where
  | str : String → Json
  | nat : Nat → Json
  | obj : JEntries → Json
deriving DecidableEq

inductive JEntries where
  | nil : JEntries
  | cons : String → Json → JEntries → JEntries
deriving DecidableEq

end

def JEntries.toList : JEntries → List (String × Json)
  | .nil => []
  | .cons k v t => (k, v) :: t.toList

def JEntries.ofList : List (String × Json) → JEntries
  | [] => .nil
  | (k, v) :: t => .cons k v (JEntries.ofList t)

/-- Python dict lookup `d[k]` / `d.get(k)`: first entry with the key. -/
def JEntries.lookup : JEntries → String → Option Json
  | .nil, _ => none
  | .cons k' v t, k => if k' = k then some v else t.lookup k

/-- Field access on a JSON object (`metadata["issuer"]` etc.). -/
def Json.getField : Json → String → Option Json
  | .obj es, k => es.lookup k
  | _, _ => none

/-! ## Key ordering

CPython compares strings lexicographically by code point.  `codeLe` is
that comparison on the underlying character lists (`Char.toNat` is the
code point). -/

def codeLe : List Char → List Char → Bool
  | c :: cs, d :: ds =>
    if c.toNat < d.toNat then true
    else if d.toNat < c.toNat then false
    else codeLe cs ds
  | [], _ => true
  | _, _ => false

/-- Comparison of key-value pairs by key only, as used by
`sorted(dct.items())` inside `json.dumps(..., sort_keys=True)` (dict keys
are unique, so the value component never takes part in the comparison). -/
def keyLe {α : Type} (a b : String × α) : Prop := codeLe a.1.data b.1.data = true

instance {α : Type} : DecidableRel (@keyLe α) :=
  fun _ _ => inferInstanceAs (Decidable (_ = true))

theorem codeLe_total : ∀ l1 l2 : List Char, codeLe l1 l2 = true ∨ codeLe l2 l1 = true
  | [], [] => Or.inl rfl
  | [], _ :: _ => Or.inl rfl
  | _ :: _, [] => Or.inr rfl
  | a :: as, b :: bs => by
    by_cases h1 : a.toNat < b.toNat
    · exact Or.inl (by simp [codeLe, h1])
    · by_cases h2 : b.toNat < a.toNat
      · exact Or.inr (by simp [codeLe, h2])
      · rcases codeLe_total as bs with h | h
        · exact Or.inl (by simp [codeLe, h1, h2, h])
        · exact Or.inr (by simp [codeLe, h1, h2, h])

theorem codeLe_trans : ∀ l1 l2 l3 : List Char,
    codeLe l1 l2 = true → codeLe l2 l3 = true → codeLe l1 l3 = true
  | [], _, _, _, _ => rfl
  | _ :: _, [], _, h, _ => by simp [codeLe] at h
  | _ :: _, _ :: _, [], _, h => by simp [codeLe] at h
  | a :: as, b :: bs, c :: cs, h1, h2 => by
    simp only [codeLe] at h1 h2 ⊢
    split_ifs at h1 h2 ⊢ <;> try rfl
    all_goals (try omega)
    all_goals try exact codeLe_trans as bs cs h1 h2

instance {α : Type} : IsTotal (String × α) keyLe :=
  ⟨fun a b => codeLe_total a.1.data b.1.data⟩

instance {α : Type} : IsTrans (String × α) keyLe :=
  ⟨fun _ _ _ h1 h2 => codeLe_trans _ _ _ h1 h2⟩

/-- Stable sort of an association list by key: the
`items = sorted(dct.items())` step of the CPython JSON encoder when
`sort_keys=True` is given. -/
def sortKV {α : Type} (l : List (String × α)) : List (String × α) :=
  l.insertionSort keyLe

/-! ## json.dumps

Model of `json.dumps(metadata, sort_keys=True, ensure_ascii=False)`
(`main.py` line 58): default separators `", "` and `": "`, object keys
sorted, strings double-quoted with the standard JSON escapes and, since
`ensure_ascii=False`, all characters at or above U+0020 kept verbatim. -/

def hexChar (n : Nat) : Char :=
  if n < 10 then Char.ofNat (48 + n) else Char.ofNat (87 + n)

def hex4 (n : Nat) : String :=
  String.mk [hexChar (n / 4096 % 16), hexChar (n / 256 % 16),
             hexChar (n / 16 % 16), hexChar (n % 16)]

/-- Per-character JSON string escaping (the CPython `ESCAPE` regex with
its `ESCAPE_DCT` map, as used when `ensure_ascii=False`). -/
def escChar (c : Char) : String :=
  if c = '\\' then "\\\\"
  else if c = '"' then "\\\""
  else if c = Char.ofNat 8 then "\\b"
  else if c = Char.ofNat 12 then "\\f"
  else if c = '\n' then "\\n"
  else if c = Char.ofNat 13 then "\\r"
  else if c = '\t' then "\\t"
  else if c.toNat < 32 then "\\u" ++ hex4 c.toNat
  else String.singleton c

def encodeJsonString (s : String) : String :=
  "\"" ++ String.join (s.data.map escChar) ++ "\""

mutual

/-- Model of `json.dumps(j, sort_keys=True, ensure_ascii=False)`. -/
def Json.dumps : Json → String
  | .str s => encodeJsonString s
  | .nat n => toString n
  | .obj es =>
    "\x7b" ++ String.intercalate ", "
      ((sortKV es.dumpsEntries).map (fun p => encodeJsonString p.1 ++ ": " ++ p.2)) ++ "\x7d"

def JEntries.dumpsEntries : JEntries → List (String × String)
  | .nil => []
  | .cons k v t => (k, v.dumps) :: t.dumpsEntries

end

/-! ## SHA-256

Faithful model of `hashlib.sha256(...).hexdigest()` over a byte list,
with 32-bit words as `Nat` reduced modulo `2^32`. -/

def rotr32 (x n : Nat) : Nat := ((x >>> n) ||| (x <<< (32 - n))) % 4294967296

def bsig0 (x : Nat) : Nat := rotr32 x 2 ^^^ rotr32 x 13 ^^^ rotr32 x 22

def bsig1 (x : Nat) : Nat := rotr32 x 6 ^^^ rotr32 x 11 ^^^ rotr32 x 25

def ssig0 (x : Nat) : Nat := rotr32 x 7 ^^^ rotr32 x 18 ^^^ (x >>> 3)

def ssig1 (x : Nat) : Nat := rotr32 x 17 ^^^ rotr32 x 19 ^^^ (x >>> 10)

def chf (x y z : Nat) : Nat := (x &&& y) ^^^ ((x ^^^ 4294967295) &&& z)

def majf (x y z : Nat) : Nat := (x &&& y) ^^^ (x &&& z) ^^^ (y &&& z)

/-- The eight 32-bit working/state words of SHA-256. -/
structure Hash8 where
  a : Nat
  b : Nat
  c : Nat
  d : Nat
  e : Nat
  f : Nat
  g : Nat
  h : Nat

def sha256H0 : Hash8 :=
  ⟨1779033703, 3144134277, 1013904242, 2773480762,
   1359893119, 2600822924, 528734635, 1541459225⟩

def sha256K : List Nat :=
  [1116352408, 1899447441, 3049323471, 3921009573, 961987163, 1508970993,
   2453635748, 2870763221, 3624381080, 310598401, 607225278, 1426881987,
   1925078388, 2162078206, 2614888103, 3248222580, 3835390401, 4022224774,
   264347078, 604807628, 770255983, 1249150122, 1555081692, 1996064986,
   2554220882, 2821834349, 2952996808, 3210313671, 3336571891, 3584528711,
   113926993, 338241895, 666307205, 773529912, 1294757372, 1396182291,
   1695183700, 1986661051, 2177026350, 2456956037, 2730485921, 2820302411,
   3259730800, 3345764771, 3516065817, 3600352804, 4094571909, 275423344,
   430227734, 506948616, 659060556, 883997877, 958139571, 1322822218,
   1537002063, 1747873779, 1955562222, 2024104815, 2227730452, 2361852424,
   2428436474, 2756734187, 3204031479, 3329325298]

/-- Append the `0x80` marker, zero padding to 56 mod 64, and the 64-bit
big-endian bit length. -/
def padBytes (m : List Nat) : List Nat :=
  m ++ 0x80 :: List.replicate ((119 - m.length % 64) % 64) 0
    ++ (List.range 8).map (fun i => (8 * m.length) >>> (8 * (7 - i)) % 256)

def toBlocks (l : List Nat) : List (List Nat) :=
  if l = [] then []
  else l.take 64 :: toBlocks (l.drop 64)
termination_by l.length
decreasing_by
  rename_i hne
  have hl : 0 < l.length := List.length_pos.mpr hne
  simp only [List.length_drop]
  omega

/-- The sixteen big-endian 32-bit words of one 64-byte block. -/
def blockWords (b : List Nat) : List Nat :=
  (List.range 16).map (fun i =>
    b.getD (4 * i) 0 * 16777216 + b.getD (4 * i + 1) 0 * 65536 +
    b.getD (4 * i + 2) 0 * 256 + b.getD (4 * i + 3) 0)

/-- Message-schedule extension from 16 to 64 words. -/
def extendWords (w : List Nat) : List Nat :=
  (List.range 48).foldl (fun ws _ =>
    ws ++ [(ssig1 (ws.getD (ws.length - 2) 0) + ws.getD (ws.length - 7) 0 +
            ssig0 (ws.getD (ws.length - 15) 0) + ws.getD (ws.length - 16) 0)
           % 4294967296]) w

def roundStep (st : Hash8) (kw : Nat × Nat) : Hash8 :=
  let t1 := (st.h + bsig1 st.e + chf st.e st.f st.g + kw.1 + kw.2) % 4294967296
  let t2 := (bsig0 st.a + majf st.a st.b st.c) % 4294967296
  ⟨(t1 + t2) % 4294967296, st.a, st.b, st.c, (st.d + t1) % 4294967296, st.e, st.f, st.g⟩

def compressBlock (st : Hash8) (block : List Nat) : Hash8 :=
  let w := extendWords (blockWords block)
  let r := (sha256K.zip w).foldl roundStep st
  ⟨(st.a + r.a) % 4294967296, (st.b + r.b) % 4294967296,
   (st.c + r.c) % 4294967296, (st.d + r.d) % 4294967296,
   (st.e + r.e) % 4294967296, (st.f + r.f) % 4294967296,
   (st.g + r.g) % 4294967296, (st.h + r.h) % 4294967296⟩

def sha256Hash8 (msg : List Nat) : Hash8 :=
  (toBlocks (padBytes msg)).foldl compressBlock sha256H0

/-- Big-endian lowercase hex rendering of one 32-bit word (8 nibbles). -/
def word32hex (w : Nat) : String :=
  String.mk ((List.range 8).map (fun i => hexChar (w >>> (4 * (7 - i)) % 16)))

def hexDigest (st : Hash8) : String :=
  word32hex st.a ++ word32hex st.b ++ word32hex st.c ++ word32hex st.d ++
  word32hex st.e ++ word32hex st.f ++ word32hex st.g ++ word32hex st.h

/-- Model of `hashlib.sha256(bytes).hexdigest()`. -/
def sha256hex (msg : List Nat) : String := hexDigest (sha256Hash8 msg)

/-- UTF-8 encoding of a string, `s.encode('utf-8')`, as a byte list. -/
def utf8Bytes (s : String) : List Nat := s.toUTF8.toList.map (fun b => b.toNat)

/-- Model of `compute_proof_hash` (`main.py` lines 56-59):
SHA-256 hex digest of `json.dumps(metadata, sort_keys=True,
ensure_ascii=False)` encoded as UTF-8. -/
def compute_proof_hash (metadata : Json) : String :=
  sha256hex (utf8Bytes metadata.dumps)

/-! ## Records and lifecycle operations -/

/-- One submission form, after Flask's `request.form.get(..., "")`
defaulting: every field is a string, absent fields are `""`. -/
structure FormData where
  producer_name : String
  prefecture : String
  product : String
  certification : String
  lot_size : String
  harvest_date : String
  contact_email : String
  wallet_address : String
  notes : String

/-- Model of `create_metadata` (`main.py` lines 61-83), preserving the
dict literal's key insertion order. -/
def create_metadata (form_data : FormData) : Json :=
  .obj (.cons "rwa_version" (.nat 1)
    (.cons "standard" (.str "hashirwa-demo")
    (.cons "issuer" (.str form_data.producer_name)
    (.cons "jurisdiction"
      (.obj (.cons "country" (.str "Japan")
        (.cons "prefecture" (.str form_data.prefecture) .nil)))
    (.cons "asset"
      (.obj (.cons "category" (.str "Agriculture")
        (.cons "product" (.str form_data.product)
        (.cons "certification" (.str form_data.certification)
        (.cons "lot_size" (.str form_data.lot_size)
        (.cons "harvest_date" (.str form_data.harvest_date) .nil))))))
    (.cons "contacts"
      (.obj (.cons "email" (.str form_data.contact_email)
        (.cons "wallet" (.str form_data.wallet_address) .nil)))
    (.cons "notes" (.str form_data.notes) .nil)))))))

structure ProofData where
  hash : String
  sim_testnet_txid : String
deriving DecidableEq

structure Timestamps where
  created_at : String
  updated_at : String
deriving DecidableEq

/-- One stored record, as appended to `db["items"]`. -/
structure Item where
  id : Nat
  status : String
  metadata : Json
  proof : ProofData
  timestamps : Timestamps
deriving DecidableEq

/-- Whitespace in the sense of Python's `str.isspace` restricted to the
ASCII range (tab through carriage return, and space); the submitted
fields never contain the additional Unicode whitespace code points that
`str.strip()` would also remove. -/
def pySpace (c : Char) : Bool := c.toNat = 32 || (9 ≤ c.toNat && c.toNat ≤ 13)

/-- Python `str.strip()`: remove leading and trailing whitespace. -/
def pyStrip (s : String) : String :=
  String.mk (((s.data.dropWhile pySpace).reverse.dropWhile pySpace).reverse)

/-- Python `str.strip()` applied to every submitted field, as in the
`form_data` construction of the `onboard` POST handler (lines 313-323). -/
def stripForm (raw : FormData) : FormData :=
  { producer_name := pyStrip raw.producer_name
    prefecture := pyStrip raw.prefecture
    product := pyStrip raw.product
    certification := pyStrip raw.certification
    lot_size := pyStrip raw.lot_size
    harvest_date := pyStrip raw.harvest_date
    contact_email := pyStrip raw.contact_email
    wallet_address := pyStrip raw.wallet_address
    notes := pyStrip raw.notes }

/-- Model of the `onboard` POST branch (`main.py` lines 311-349): strip
the submitted fields, build metadata, compute the proof hash and the
simulated testnet transaction id, create a `pending` item with both
timestamps set to `now`, and append it to the store.  `item_id` stands
for `generate_id()` and `now` for `datetime.now().isoformat()`.  The
handler performs no validation of the submitted fields. -/
def onboard_post (raw : FormData) (item_id : Nat) (now : String)
    (db : List Item) : Item × List Item :=
  let form_data := stripForm raw
  let metadata := create_metadata form_data
  let proof_hash := compute_proof_hash metadata
  let sim_testnet_txid := "testnet:" ++ proof_hash.take 16
  let item : Item :=
    { id := item_id
      status := "pending"
      metadata := metadata
      proof := { hash := proof_hash, sim_testnet_txid := sim_testnet_txid }
      timestamps := { created_at := now, updated_at := now } }
  (item, db ++ [item])

/-- Mutate the first list element satisfying `p` (the effect of Python's
`next((item for item in db["items"] if item["id"] == item_id), None)`
followed by in-place field assignment). -/
def updateFirst (p : Item → Bool) (f : Item → Item) : List Item → List Item
  | [] => []
  | x :: t => if p x then f x :: t else x :: updateFirst p f t

/-- The in-place mutation `item["status"] = s;
item["timestamps"]["updated_at"] = now` of the admin handlers. -/
def setStatus (s now : String) (item : Item) : Item :=
  { item with status := s,
              timestamps := { item.timestamps with updated_at := now } }

/-- Model of `admin_approve` (`main.py` lines 605-618): wrong key aborts
with 403 and leaves the store untouched; otherwise the first item with
the given id (if any) gets `status = "approved"` and a refreshed
`updated_at`; a missing id silently changes nothing. -/
def admin_approve (admin_key k : String) (item_id : Nat) (now : String)
    (db : List Item) : Except Nat (List Item) :=
  if k ≠ admin_key then .error 403
  else .ok (updateFirst (fun item => item.id == item_id) (setStatus "approved" now) db)

/-- Model of `admin_reject` (`main.py` lines 620-633). -/
def admin_reject (admin_key k : String) (item_id : Nat) (now : String)
    (db : List Item) : Except Nat (List Item) :=
  if k ≠ admin_key then .error 403
  else .ok (updateFirst (fun item => item.id == item_id) (setStatus "rejected" now) db)

/-- The store contents after `admin_approve` (an aborted request leaves
the JSON file as it was). -/
def admin_approve_store (admin_key k : String) (item_id : Nat) (now : String)
    (db : List Item) : List Item :=
  match admin_approve admin_key k item_id now db with
  | .error _ => db
  | .ok db' => db'

/-- The store contents after `admin_reject`. -/
def admin_reject_store (admin_key k : String) (item_id : Nat) (now : String)
    (db : List Item) : List Item :=
  match admin_reject admin_key k item_id now db with
  | .error _ => db
  | .ok db' => db'

/-- Ascending comparison of items by `created_at` (Python string `<` on
ISO timestamps, by code point). -/
def leCreated (a b : Item) : Prop :=
  codeLe a.timestamps.created_at.data b.timestamps.created_at.data = true

/-- Descending comparison of items by `updated_at` (`reverse=True`). -/
def geUpdated (a b : Item) : Prop :=
  codeLe b.timestamps.updated_at.data a.timestamps.updated_at.data = true

instance : DecidableRel leCreated :=
  fun _ _ => inferInstanceAs (Decidable (_ = true))

instance : DecidableRel geUpdated :=
  fun _ _ => inferInstanceAs (Decidable (_ = true))

instance : IsTotal Item leCreated :=
  ⟨fun a b => codeLe_total a.timestamps.created_at.data b.timestamps.created_at.data⟩

instance : IsTrans Item leCreated :=
  ⟨fun _ _ _ h1 h2 => codeLe_trans _ _ _ h1 h2⟩

instance : IsTotal Item geUpdated :=
  ⟨fun a b => codeLe_total b.timestamps.updated_at.data a.timestamps.updated_at.data⟩

instance : IsTrans Item geUpdated :=
  ⟨fun _ _ _ h1 h2 => codeLe_trans _ _ _ h2 h1⟩

/-- Model of the pending queue of the `admin` view (`main.py` lines
530-535): filter `status == "pending"`, stable sort ascending by
`created_at`. -/
def listPending (db : List Item) : List Item :=
  (db.filter (fun item => item.status == "pending")).insertionSort leCreated

/-- Model of the approved listings of the `admin` and `market` views
(`main.py` lines 532-536 and 637-639): filter `status == "approved"`,
stable sort descending by `updated_at`. -/
def listApproved (db : List Item) : List Item :=
  (db.filter (fun item => item.status == "approved")).insertionSort geUpdated

/-- Predicate for a lowercase hexadecimal digit (0-9, a-f). -/
def isLowerHexChar (c : Char) : Bool :=
  (48 ≤ c.toNat && c.toNat ≤ 57) || (97 ≤ c.toNat && c.toNat ≤ 102)

/-- A submission in which every field is absent (Flask's default) or
empty: every required field is empty after trimming. -/
def emptyForm : FormData := ⟨"", "", "", "", "", "", "", "", ""⟩

/-- A store record that has already been approved. -/
def sampleApproved : Item :=
  { id := 1
    status := "approved"
    metadata := .obj .nil
    proof := { hash := "h", sim_testnet_txid := "t" }
    timestamps := { created_at := "2024-01-01T00:00:00", updated_at := "2024-01-01T00:00:00" } }

mutual

/-- Recursively sort every object's entries by key.  Two Python dicts
have identical content (the same key-value mapping at every nesting
level, whatever the insertion order) exactly when their normal forms
are equal. -/
def Json.normalize : Json → Json
  | .str s => .str s
  | .nat n => .nat n
  | .obj es => .obj (JEntries.ofList (sortKV es.normalizeEntries))

def JEntries.normalizeEntries : JEntries → List (String × Json)
  | .nil => []
  | .cons k v t => (k, v.normalize) :: t.normalizeEntries

end

/-! ## Theorems -/

theorem sortKV_sorted {α : Type} (l : List (String × α)) :
    List.Sorted keyLe (sortKV l) :=
  List.sorted_insertionSort keyLe l

theorem sortKV_idem {α : Type} (l : List (String × α)) :
    sortKV (sortKV l) = sortKV l :=
  (sortKV_sorted l).insertionSort_eq

theorem sortKV_map {α β : Type} (g : α → β) :
    ∀ l : List (String × α),
      sortKV (l.map (fun p => (p.1, g p.2))) = (sortKV l).map (fun p => (p.1, g p.2))
  | [] => rfl
  | x :: t => by
    simp only [List.map_cons, sortKV, List.insertionSort]
    rw [show List.insertionSort keyLe (t.map (fun p => (p.1, g p.2)))
          = sortKV (t.map (fun p => (p.1, g p.2))) from rfl,
        sortKV_map g t]
    exact (List.map_orderedInsert keyLe keyLe (fun p => (p.1, g p.2)) _ x
      (fun _ _ => Iff.rfl) (fun _ _ => Iff.rfl)).symm

theorem JEntries.dumpsEntries_eq_map :
    ∀ es : JEntries, es.dumpsEntries = es.toList.map (fun p => (p.1, p.2.dumps))
  | .nil => rfl
  | .cons k v t => by
    simp [JEntries.dumpsEntries, JEntries.toList, JEntries.dumpsEntries_eq_map t]

theorem JEntries.dumpsEntries_ofList :
    ∀ l : List (String × Json),
      (JEntries.ofList l).dumpsEntries = l.map (fun p => (p.1, p.2.dumps))
  | [] => rfl
  | (k, v) :: t => by
    simp [JEntries.ofList, JEntries.dumpsEntries, JEntries.dumpsEntries_ofList t]

mutual

theorem Json.dumps_normalize : ∀ j : Json, j.normalize.dumps = j.dumps
  | .str _ => rfl
  | .nat _ => rfl
  | .obj es => by
    show (Json.obj (JEntries.ofList (sortKV es.normalizeEntries))).dumps
        = (Json.obj es).dumps
    simp only [Json.dumps, JEntries.dumpsEntries_ofList]
    rw [← sortKV_map Json.dumps es.normalizeEntries, sortKV_idem,
        JEntries.normEntries_dumps es]

theorem JEntries.normEntries_dumps :
    ∀ es : JEntries,
      sortKV (es.normalizeEntries.map (fun p => (p.1, p.2.dumps)))
        = sortKV es.dumpsEntries
  | .nil => rfl
  | .cons k v t => by
    simp only [JEntries.normalizeEntries, JEntries.dumpsEntries, List.map_cons]
    rw [Json.dumps_normalize v]
    simp only [sortKV, List.insertionSort]
    rw [show List.insertionSort keyLe (t.normalizeEntries.map (fun p => (p.1, Json.dumps p.2)))
          = sortKV (t.normalizeEntries.map (fun p => (p.1, Json.dumps p.2))) from rfl,
        JEntries.normEntries_dumps t]
    rfl

end

theorem hexChar_lowerHex : ∀ n : Nat, n < 16 → isLowerHexChar (hexChar n) = true := by
  decide

theorem word32hex_length (w : Nat) : (word32hex w).length = 8 := by
  simp [word32hex]

theorem word32hex_lowerHex (w : Nat) :
    (word32hex w).data.all isLowerHexChar = true := by
  simp only [word32hex, List.all_eq_true]
  intro c hc
  rcases List.mem_map.mp hc with ⟨i, _, rfl⟩
  exact hexChar_lowerHex _ (Nat.mod_lt _ (by norm_num))

theorem hexDigest_length (st : Hash8) : (hexDigest st).length = 64 := by
  simp [hexDigest, word32hex_length]

theorem hexDigest_lowerHex (st : Hash8) :
    (hexDigest st).data.all isLowerHexChar = true := by
  simp [hexDigest, List.all_append, word32hex_lowerHex]

theorem sha256hex_length (msg : List Nat) : (sha256hex msg).length = 64 :=
  hexDigest_length _

theorem sha256hex_lowerHex (msg : List Nat) :
    (sha256hex msg).data.all isLowerHexChar = true :=
  hexDigest_lowerHex _

theorem updateFirst_of_none (p : Item → Bool) (f : Item → Item) :
    ∀ l : List Item, (∀ x ∈ l, p x = false) → updateFirst p f l = l
  | [], _ => rfl
  | x :: t, h => by
    have hx : p x = false := h x (List.mem_cons_self x t)
    simp [updateFirst, hx,
      updateFirst_of_none p f t (fun y hy => h y (List.mem_cons_of_mem x hy))]

theorem updateFirst_find? (p : Item → Bool) (f : Item → Item)
    (hp : ∀ x, p x = true → p (f x) = true) :
    ∀ (l : List Item) (it : Item), l.find? p = some it →
      (updateFirst p f l).find? p = some (f it)
  | [], it, h => by simp at h
  | x :: t, it, h => by
    by_cases hx : p x = true
    · rw [List.find?_cons_of_pos t hx] at h
      cases h
      simp [updateFirst, hx, List.find?_cons_of_pos _ (hp _ hx)]
    · have hx' : p x = false := by simpa using hx
      rw [List.find?_cons_of_neg t (by simp [hx'])] at h
      simp only [updateFirst, hx', Bool.false_eq_true, if_false]
      rw [List.find?_cons_of_neg _ (by simp [hx'])]
      exact updateFirst_find? p f hp t it h

/-- C1: for every two metadata values with identical field content (the
same keys and values at every nesting level, hence equal normal forms)
but different construction/insertion order, `compute_proof_hash` returns
identical hashes: the proof hash depends only on the metadata's content,
not on key insertion order. -/
theorem claim_C1 (m1 m2 : Json) (h : m1.normalize = m2.normalize) :
    compute_proof_hash m1 = compute_proof_hash m2 := by
  unfold compute_proof_hash
  rw [← Json.dumps_normalize m1, ← Json.dumps_normalize m2, h]

/-- Witness for C1 at two concrete metadata values whose entries are
permuted at both nesting levels. -/
theorem claim_C1_witness :
    (Json.obj (.cons "standard" (.str "hashirwa-demo")
      (.cons "jurisdiction" (.obj (.cons "prefecture" (.str "東京都")
        (.cons "country" (.str "Japan") .nil)))
      (.cons "rwa_version" (.nat 1) .nil)))).normalize =
    (Json.obj (.cons "rwa_version" (.nat 1)
      (.cons "standard" (.str "hashirwa-demo")
      (.cons "jurisdiction" (.obj (.cons "country" (.str "Japan")
        (.cons "prefecture" (.str "東京都") .nil))) .nil)))).normalize ∧
    compute_proof_hash (Json.obj (.cons "standard" (.str "hashirwa-demo")
      (.cons "jurisdiction" (.obj (.cons "prefecture" (.str "東京都")
        (.cons "country" (.str "Japan") .nil)))
      (.cons "rwa_version" (.nat 1) .nil)))) =
    compute_proof_hash (Json.obj (.cons "rwa_version" (.nat 1)
      (.cons "standard" (.str "hashirwa-demo")
      (.cons "jurisdiction" (.obj (.cons "country" (.str "Japan")
        (.cons "prefecture" (.str "東京都") .nil))) .nil)))) :=
  ⟨by decide, claim_C1 _ _ (by decide)⟩

/-- C5: the proof hash computed for any metadata value is a 64-character
string of lowercase hexadecimal digits, and the simulated transaction id
of a submitted record is the constant prefix "testnet:" followed by the
first 16 characters of its proof hash. -/
theorem claim_C5 (m : Json) (raw : FormData) (item_id : Nat) (now : String)
    (db : List Item) :
    (compute_proof_hash m).length = 64 ∧
    (compute_proof_hash m).data.all isLowerHexChar = true ∧
    (onboard_post raw item_id now db).1.proof.sim_testnet_txid =
      "testnet:" ++ ((onboard_post raw item_id now db).1.proof.hash).take 16 ∧
    (onboard_post raw item_id now db).1.proof.hash =
      compute_proof_hash (onboard_post raw item_id now db).1.metadata :=
  ⟨sha256hex_length _, sha256hex_lowerHex _, rfl, rfl⟩

/-- C6: every record produced by the `onboard` POST handler has status
"pending" and equal `created_at` and `updated_at` timestamps. -/
theorem claim_C6 (raw : FormData) (item_id : Nat) (now : String) (db : List Item) :
    (onboard_post raw item_id now db).1.status = "pending" ∧
    (onboard_post raw item_id now db).1.timestamps.created_at =
      (onboard_post raw item_id now db).1.timestamps.updated_at ∧
    (onboard_post raw item_id now db).2 = db ++ [(onboard_post raw item_id now db).1] :=
  ⟨rfl, rfl, rfl⟩

/-- C8: the pending queue contains exactly the records whose status is
"pending" (a permutation of that filter of the store) and is ordered by
non-decreasing `created_at`. -/
theorem claim_C8 (db : List Item) :
    (listPending db).Perm (db.filter (fun item => item.status == "pending")) ∧
    List.Sorted leCreated (listPending db) :=
  ⟨List.perm_insertionSort leCreated _, List.sorted_insertionSort leCreated _⟩

/-- C9: the approved listing contains exactly the records whose status is
"approved" (a permutation of that filter of the store) and is ordered by
non-increasing `updated_at`. -/
theorem claim_C9 (db : List Item) :
    (listApproved db).Perm (db.filter (fun item => item.status == "approved")) ∧
    List.Sorted geUpdated (listApproved db) :=
  ⟨List.perm_insertionSort geUpdated _, List.sorted_insertionSort geUpdated _⟩

/-- C10: whatever the submitted form contains, the metadata built by
`create_metadata` has the four fixed constant fields `rwa_version = 1`,
`standard = "hashirwa-demo"`, `jurisdiction.country = "Japan"` and
`asset.category = "Agriculture"`: the caller cannot influence them. -/
theorem claim_C10 (form_data : FormData) :
    (create_metadata form_data).getField "rwa_version" = some (.nat 1) ∧
    (create_metadata form_data).getField "standard" = some (.str "hashirwa-demo") ∧
    ((create_metadata form_data).getField "jurisdiction").bind
      (fun j => j.getField "country") = some (.str "Japan") ∧
    ((create_metadata form_data).getField "asset").bind
      (fun j => j.getField "category") = some (.str "Agriculture") :=
  ⟨rfl, rfl, rfl, rfl⟩

/-- C2 (code evaluated at the failing input): the `onboard` POST handler
performs no validation at all — a submission in which every required
field is empty (empty after trimming) still appends a new pending record
to the store, with an empty issuer, instead of failing with
`ValidationError` and creating nothing. -/
theorem claim_C2_code_behavior :
    ((onboard_post emptyForm 1000 "2024-01-01T00:00:00" []).2).length = 1 ∧
    (onboard_post emptyForm 1000 "2024-01-01T00:00:00" []).1.status = "pending" ∧
    (stripForm emptyForm).producer_name = "" ∧
    (onboard_post emptyForm 1000 "2024-01-01T00:00:00" []).1.metadata.getField "issuer"
      = some (.str "") :=
  ⟨rfl, rfl, rfl, rfl⟩

/-- C3 counterexample: a record that is already approved is changed to a
different status by an admin operation — `admin_reject` with a valid key
turns an approved record into a rejected one, so approved is not
terminal and the permitted repetitions are not only idempotent ones. -/
theorem claim_C3_counterexample :
    sampleApproved.status = "approved" ∧
    (admin_reject_store "hashirwa" "hashirwa" 1 "2024-01-02T00:00:00"
        [sampleApproved]).map (fun item => item.status) = ["rejected"] := by
  constructor
  · rfl
  · decide


/-- C3 as amended: `admin_approve` and `admin_reject` with a valid key
set the first record carrying the requested id to "approved" resp.
"rejected" and refresh its `updated_at`, unconditionally on its previous
status — so beyond the intended `pending → approved/rejected`
transitions, repeated admin calls can also flip a record between
approved and rejected; nothing restricts transitions to start from
pending. -/
theorem claim_C3_amended (admin_key k : String) (item_id : Nat) (now : String)
    (db : List Item) (it : Item) (hk : k = admin_key)
    (hf : db.find? (fun x => x.id == item_id) = some it) :
    (admin_approve_store admin_key k item_id now db).find? (fun x => x.id == item_id)
      = some (setStatus "approved" now it) ∧
    (admin_reject_store admin_key k item_id now db).find? (fun x => x.id == item_id)
      = some (setStatus "rejected" now it) := by
  subst hk
  constructor
  · simp only [admin_approve_store, admin_approve, ne_eq, not_true_eq_false, if_false]
    exact updateFirst_find? (fun x => x.id == item_id) (setStatus "approved" now)
      (fun x hx => hx) db it hf
  · simp only [admin_reject_store, admin_reject, ne_eq, not_true_eq_false, if_false]
    exact updateFirst_find? (fun x => x.id == item_id) (setStatus "rejected" now)
      (fun x hx => hx) db it hf

/-- Witness for the amended C3 at a concrete already-approved record. -/
theorem claim_C3_amended_witness :
    ("hashirwa" : String) = "hashirwa" ∧
    ([sampleApproved].find? (fun x => x.id == 1) = some sampleApproved) ∧
    ((admin_approve_store "hashirwa" "hashirwa" 1 "2024-01-02T00:00:00"
        [sampleApproved]).find? (fun x => x.id == 1)
      = some (setStatus "approved" "2024-01-02T00:00:00" sampleApproved) ∧
     (admin_reject_store "hashirwa" "hashirwa" 1 "2024-01-02T00:00:00"
        [sampleApproved]).find? (fun x => x.id == 1)
      = some (setStatus "rejected" "2024-01-02T00:00:00" sampleApproved)) :=
  ⟨rfl, by decide,
    claim_C3_amended "hashirwa" "hashirwa" 1 "2024-01-02T00:00:00"
      [sampleApproved] sampleApproved rfl (by decide)⟩

/-- C4: approving or rejecting an id for which no record exists, with a
valid admin credential, silently does nothing — the store is returned
unchanged (no record modified, none appended) and no error is signalled. -/
theorem claim_C4 (admin_key : String) (item_id : Nat) (now : String)
    (db : List Item) (h : ∀ it ∈ db, it.id ≠ item_id) :
    admin_approve admin_key admin_key item_id now db = .ok db ∧
    admin_reject admin_key admin_key item_id now db = .ok db := by
  have hall : ∀ x ∈ db, (x.id == item_id) = false := by
    intro x hx
    simpa using h x hx
  constructor
  · simp only [admin_approve, ne_eq, not_true_eq_false, if_false]
    rw [updateFirst_of_none _ _ db hall]
  · simp only [admin_reject, ne_eq, not_true_eq_false, if_false]
    rw [updateFirst_of_none _ _ db hall]

/-- Witness for C4 at the spec's concrete scenario: a nonexistent id
999999 is approved and rejected without effect. -/
theorem claim_C4_witness :
    (∀ it ∈ [sampleApproved], it.id ≠ 999999) ∧
    (admin_approve "hashirwa" "hashirwa" 999999 "2024-01-02T00:00:00"
        [sampleApproved] = .ok [sampleApproved] ∧
     admin_reject "hashirwa" "hashirwa" 999999 "2024-01-02T00:00:00"
        [sampleApproved] = .ok [sampleApproved]) :=
  ⟨by decide,
    claim_C4 "hashirwa" 999999 "2024-01-02T00:00:00" [sampleApproved] (by decide)⟩

/-- C7: approving or rejecting with a credential different from the admin
key aborts with 403 (the authorization error) and leaves the whole store
— in particular every record's status and `updated_at` — unchanged. -/
theorem claim_C7 (admin_key k : String) (item_id : Nat) (now : String)
    (db : List Item) (h : k ≠ admin_key) :
    admin_approve admin_key k item_id now db = .error 403 ∧
    admin_reject admin_key k item_id now db = .error 403 ∧
    admin_approve_store admin_key k item_id now db = db ∧
    admin_reject_store admin_key k item_id now db = db := by
  refine ⟨?_, ?_, ?_, ?_⟩ <;>
    simp [admin_approve, admin_reject, admin_approve_store, admin_reject_store, h]

/-- Witness for C7 at a concrete wrong credential. -/
theorem claim_C7_witness :
    ("wrong" : String) ≠ "hashirwa" ∧
    (admin_approve "hashirwa" "wrong" 1 "2024-01-02T00:00:00" [sampleApproved]
        = .error 403 ∧
     admin_reject "hashirwa" "wrong" 1 "2024-01-02T00:00:00" [sampleApproved]
        = .error 403 ∧
     admin_approve_store "hashirwa" "wrong" 1 "2024-01-02T00:00:00" [sampleApproved]
        = [sampleApproved] ∧
     admin_reject_store "hashirwa" "wrong" 1 "2024-01-02T00:00:00" [sampleApproved]
        = [sampleApproved]) :=
  ⟨by decide,
    claim_C7 "hashirwa" "wrong" 1 "2024-01-02T00:00:00" [sampleApproved] (by decide)⟩
